import Mathlib

/-!
Shallow embedding of src/websockets.rs (binance-rs): a streaming client that
classifies each inbound text frame by substring markers, decodes it with an
external JSON codec, and dispatches it to at most one registered handler.

Modelling conventions:
- Rust strings are Lean String; the Rust test msg.find(pat) != None is the
  Bool-valued findMarker below.
- The transport channel (tungstenite WebSocket) is external; it is modelled by
  the sequence of read results it will deliver: each read yields either a text
  frame or a channel error (Channel below).  The stored Response of the
  handshake pair is never consumed by the source and is not modelled.
- serde_json::from_str is an external decoder; it is modelled by a Codec record
  of fallible per-type decode functions supplied as a parameter.
- Handler trait objects are records of methods; a method returns a value of an
  abstract effect type so that an invocation is observable in theorems (the
  Rust methods return unit and side-effect).
- The source calls .unwrap() on a failed read or decode, which aborts the loop;
  following the stated design reading of that control flow, a failed read or
  decode is modelled as an error value that terminates the loop and is returned
  to the caller.
-/

namespace Binance

/-- leadsList pat msg is true when pat is an initial run of msg
(character-for-character from the front). -/
def leadsList : List Char → List Char → Bool
  | [], _ => true
  | _ :: _, [] => false
  | p :: ps, m :: ms => p == m && leadsList ps ms

/-- findSub msg pat is true when pat occurs contiguously somewhere in msg. -/
def findSub : List Char → List Char → Bool
  | [], pat => pat.isEmpty
  | msg@(_ :: t), pat => leadsList pat msg || findSub t pat

/-- Model of the Rust test msg.find(pat) != None: pat occurs in msg as a
contiguous substring. -/
def findMarker (msg pat : String) : Bool :=
  findSub msg.toList pat.toList

/-- Fixed base endpoint WEBSOCKET_URL of websockets.rs. -/
def WEBSOCKET_URL : String := "wss://stream.binance.com:9443/ws/"

/-- Marker for account-update user-stream payloads. -/
def OUTBOUND_ACCOUNT_INFO : String := "outboundAccountInfo"

/-- Marker for order-trade (execution report) user-stream payloads. -/
def EXECUTION_REPORT : String := "executionReport"

/-- Marker for kline payloads. -/
def KLINE : String := "kline"

/-- Marker for aggregated-trade payloads. -/
def AGGREGATED_TRADE : String := "aggTrade"

/-- Marker for trade payloads. -/
def TRADE : String := "trade"

/-- Marker for depth-diff payloads. -/
def DEPTH_DIFF : String := "depthUpdate"

/-- Marker for partial-book (orderbook snapshot) payloads. -/
def ORDERBOOK : String := "lastUpdateId"

/-- Modelled from the spec: AccountUpdateEvent lives in model.rs, which is not
part of the embedded source; the spec describes each typed event only as an
immutable decoded snapshot of a raw payload, so the record keeps that snapshot
abstractly. -/
structure AccountUpdateEvent where
  snapshot : String
deriving DecidableEq

/-- Modelled from the spec: OrderTradeEvent of model.rs, kept as a decoded
snapshot (see AccountUpdateEvent). -/
structure OrderTradeEvent where
  snapshot : String
deriving DecidableEq

/-- Modelled from the spec: AggTradeEvent of model.rs, kept as a decoded
snapshot (see AccountUpdateEvent). -/
structure AggTradeEvent where
  snapshot : String
deriving DecidableEq

/-- Modelled from the spec: TradeEvent of model.rs, kept as a decoded snapshot
(see AccountUpdateEvent). -/
structure TradeEvent where
  snapshot : String
deriving DecidableEq

/-- Modelled from the spec: KlineEvent of model.rs, kept as a decoded snapshot
(see AccountUpdateEvent). -/
structure KlineEvent where
  snapshot : String
deriving DecidableEq

/-- Modelled from the spec: OrderBook of model.rs, kept as a decoded snapshot
(see AccountUpdateEvent). -/
structure OrderBook where
  snapshot : String
deriving DecidableEq

/-- Modelled from the spec: DepthDiffEvent of model.rs, kept as a decoded
snapshot (see AccountUpdateEvent). -/
structure DepthDiffEvent where
  snapshot : String
deriving DecidableEq

/-- The UserStreamEventHandler trait: one method per user-stream event kind.
A method returns an effect of type ε so invocations are observable. -/
structure UserStreamEventHandler (ε : Type) where
  account_update_handler : AccountUpdateEvent → ε
  order_trade_handler : OrderTradeEvent → ε

/-- The MarketEventHandler trait: one method per market event kind.  The third
method embeds the trait method named after the partial orderbook in the
source. -/
structure MarketEventHandler (ε : Type) where
  aggregated_trades_handler : AggTradeEvent → ε
  trade_handler : TradeEvent → ε
  orderbook_handler : OrderBook → ε
  depth_diff_handler : DepthDiffEvent → ε

/-- The KlineEventHandler trait. -/
structure KlineEventHandler (ε : Type) where
  kline_handler : KlineEvent → ε

/-- The transport channel, modelled by the read results it will deliver in
order: a text frame, or a channel error (a failed read or a non-text frame,
which the source unwraps). -/
abbrev Channel : Type := List (Except String String)

/-- The WebSockets struct: the optional connected channel and the three
optional handler slots. -/
structure WebSockets (ε : Type) where
  socket : Option Channel
  user_stream_handler : Option (UserStreamEventHandler ε)
  market_handler : Option (MarketEventHandler ε)
  kline_handler : Option (KlineEventHandler ε)

/-- WebSockets::new — all fields empty. -/
def WebSockets.new (ε : Type) : WebSockets ε :=
  { socket := none
    user_stream_handler := none
    market_handler := none
    kline_handler := none }

/-- WebSockets::connect.  url_parse models Url::parse of the external url
crate (the parsed URL is kept as its text); transport_connect models
tungstenite::connect, yielding the channel on success.  Mirrors the source:
build the address by appending the endpoint to the base URL, propagate a parse
error unchanged (the ? operator), store the channel on success, and on a
handshake failure return the bail! message with self untouched.  The result
pairs the returned Result with the (possibly updated) receiver. -/
def connect {ε : Type} (ws : WebSockets ε) (endpoint : String)
    (url_parse : String → Except String String)
    (transport_connect : String → Except String Channel) :
    Except String Unit × WebSockets ε :=
  let wss : String := WEBSOCKET_URL ++ endpoint
  match url_parse wss with
  | Except.error e => (Except.error e, ws)
  | Except.ok url =>
    match transport_connect url with
    | Except.ok answer => (Except.ok (), { ws with socket := some answer })
    | Except.error e => (Except.error ("Error during handshake " ++ e), ws)

/-- WebSockets::add_user_stream_handler — overwrite the user-stream slot. -/
def add_user_stream_handler {ε : Type} (ws : WebSockets ε)
    (handler : UserStreamEventHandler ε) : WebSockets ε :=
  { ws with user_stream_handler := some handler }

/-- WebSockets::add_market_handler — overwrite the market slot. -/
def add_market_handler {ε : Type} (ws : WebSockets ε)
    (handler : MarketEventHandler ε) : WebSockets ε :=
  { ws with market_handler := some handler }

/-- WebSockets::add_kline_handler — overwrite the kline slot. -/
def add_kline_handler {ε : Type} (ws : WebSockets ε)
    (handler : KlineEventHandler ε) : WebSockets ε :=
  { ws with kline_handler := some handler }

/-- The closed set of event categories the dispatch chain distinguishes. -/
inductive EventCategory
  | AccountUpdate
  | OrderTrade
  | AggregatedTrade
  | Trade
  | Kline
  | PartialOrderBook
  | DepthDiff
  | Unknown
deriving DecidableEq

/-- The classifier: the condition chain of the event_loop body, read off in
source order.  Pure and total: every payload gets exactly one category. -/
def classify (msg : String) : EventCategory :=
  if findMarker msg OUTBOUND_ACCOUNT_INFO then EventCategory.AccountUpdate
  else if findMarker msg EXECUTION_REPORT then EventCategory.OrderTrade
  else if findMarker msg AGGREGATED_TRADE then EventCategory.AggregatedTrade
  else if findMarker msg TRADE then EventCategory.Trade
  else if findMarker msg KLINE then EventCategory.Kline
  else if findMarker msg ORDERBOOK then EventCategory.PartialOrderBook
  else if findMarker msg DEPTH_DIFF then EventCategory.DepthDiff
  else EventCategory.Unknown

/-- Handler groups of the registry, one per handler slot. -/
inductive HandlerGroup
  | UserStream
  | Market
  | Kline
deriving DecidableEq

/-- The handler group serving each category; Unknown has none. -/
def groupOf : EventCategory → Option HandlerGroup
  | EventCategory.AccountUpdate => some HandlerGroup.UserStream
  | EventCategory.OrderTrade => some HandlerGroup.UserStream
  | EventCategory.AggregatedTrade => some HandlerGroup.Market
  | EventCategory.Trade => some HandlerGroup.Market
  | EventCategory.Kline => some HandlerGroup.Kline
  | EventCategory.PartialOrderBook => some HandlerGroup.Market
  | EventCategory.DepthDiff => some HandlerGroup.Market
  | EventCategory.Unknown => none

/-- True when the slot of the given group holds no handler. -/
def handlerSlotEmpty {ε : Type} (ws : WebSockets ε) : HandlerGroup → Bool
  | HandlerGroup.UserStream => ws.user_stream_handler.isNone
  | HandlerGroup.Market => ws.market_handler.isNone
  | HandlerGroup.Kline => ws.kline_handler.isNone

/-- The external decoder (serde_json::from_str) at each event type a dispatch
branch instantiates it with. -/
structure Codec where
  account_update_from_str : String → Except String AccountUpdateEvent
  order_trade_from_str : String → Except String OrderTradeEvent
  agg_trade_from_str : String → Except String AggTradeEvent
  trade_from_str : String → Except String TradeEvent
  kline_from_str : String → Except String KlineEvent
  order_book_from_str : String → Except String OrderBook
  depth_diff_from_str : String → Except String DepthDiffEvent

/-- One observable step of a dispatch cycle: a successful decode of the
payload at a category's type, or an invocation of a handler method with the
effect it produced. -/
inductive Action (ε : Type)
  | decoded (c : EventCategory)
  | invoked (eff : ε)
deriving DecidableEq

/-- One read-classify-decode-dispatch cycle of the event_loop body on one text
payload, mirroring the source's if/else chain branch by branch: test the
marker, decode (a decode failure aborts the cycle with the error), then invoke
the group's handler method when the slot is filled.  Returns the actions the
cycle performed. -/
def dispatchCycle {ε : Type} (ws : WebSockets ε) (codec : Codec) (msg : String) :
    Except String (List (Action ε)) :=
  if findMarker msg OUTBOUND_ACCOUNT_INFO then
    match codec.account_update_from_str msg with
    | Except.error e => Except.error e
    | Except.ok account_update =>
      Except.ok (Action.decoded EventCategory.AccountUpdate ::
        (match ws.user_stream_handler with
         | some h => [Action.invoked (h.account_update_handler account_update)]
         | none => []))
  else if findMarker msg EXECUTION_REPORT then
    match codec.order_trade_from_str msg with
    | Except.error e => Except.error e
    | Except.ok order_trade =>
      Except.ok (Action.decoded EventCategory.OrderTrade ::
        (match ws.user_stream_handler with
         | some h => [Action.invoked (h.order_trade_handler order_trade)]
         | none => []))
  else if findMarker msg AGGREGATED_TRADE then
    match codec.agg_trade_from_str msg with
    | Except.error e => Except.error e
    | Except.ok trades =>
      Except.ok (Action.decoded EventCategory.AggregatedTrade ::
        (match ws.market_handler with
         | some h => [Action.invoked (h.aggregated_trades_handler trades)]
         | none => []))
  else if findMarker msg TRADE then
    match codec.trade_from_str msg with
    | Except.error e => Except.error e
    | Except.ok trade =>
      Except.ok (Action.decoded EventCategory.Trade ::
        (match ws.market_handler with
         | some h => [Action.invoked (h.trade_handler trade)]
         | none => []))
  else if findMarker msg KLINE then
    match codec.kline_from_str msg with
    | Except.error e => Except.error e
    | Except.ok kline =>
      Except.ok (Action.decoded EventCategory.Kline ::
        (match ws.kline_handler with
         | some h => [Action.invoked (h.kline_handler kline)]
         | none => []))
  else if findMarker msg ORDERBOOK then
    match codec.order_book_from_str msg with
    | Except.error e => Except.error e
    | Except.ok book =>
      Except.ok (Action.decoded EventCategory.PartialOrderBook ::
        (match ws.market_handler with
         | some h => [Action.invoked (h.orderbook_handler book)]
         | none => []))
  else if findMarker msg DEPTH_DIFF then
    match codec.depth_diff_from_str msg with
    | Except.error e => Except.error e
    | Except.ok depth_diff =>
      Except.ok (Action.decoded EventCategory.DepthDiff ::
        (match ws.market_handler with
         | some h => [Action.invoked (h.depth_diff_handler depth_diff)]
         | none => []))
  else
    Except.ok []

/-- The two fatal loop outcomes: a channel read failure, or a decode failure
on a classified payload. -/
inductive LoopError
  | channelRead (e : String)
  | decode (e : String)
deriving DecidableEq

/-- The event_loop over an explicit list of channel read results: a read
error terminates the loop with a channelRead error; a decode failure inside a
cycle terminates it with a decode error; otherwise the cycle's actions are
accumulated and the loop continues with the next frame. -/
def runFrames {ε : Type} (ws : WebSockets ε) (codec : Codec) :
    Channel → Except LoopError (List (Action ε))
  | [] => Except.ok []
  | Except.error e :: _ => Except.error (LoopError.channelRead e)
  | Except.ok msg :: rest =>
    match dispatchCycle ws codec msg with
    | Except.error e => Except.error (LoopError.decode e)
    | Except.ok acts =>
      match runFrames ws codec rest with
      | Except.error err => Except.error err
      | Except.ok more => Except.ok (acts ++ more)

/-- WebSockets::event_loop.  When no socket is stored the source body spins
without ever reading or dispatching, so the run produces no actions; when a
socket is stored the loop consumes its read results in order. -/
def event_loop {ε : Type} (ws : WebSockets ε) (codec : Codec) :
    Except LoopError (List (Action ε)) :=
  match ws.socket with
  | none => Except.ok []
  | some frames => runFrames ws codec frames

/-- True of the actions that are handler invocations. -/
def Action.isInvoked {ε : Type} : Action ε → Bool
  | Action.invoked _ => true
  | Action.decoded _ => false

/-- The effects a given market handler can produce: the range of its four
methods. -/
def MarketEventHandler.emits {ε : Type} (h : MarketEventHandler ε) (eff : ε) : Prop :=
  (∃ e, eff = h.aggregated_trades_handler e) ∨
  (∃ e, eff = h.trade_handler e) ∨
  (∃ e, eff = h.orderbook_handler e) ∨
  (∃ e, eff = h.depth_diff_handler e)

/-- True when the decoder of the given category accepts the payload (Unknown
has no decoder and counts as accepting). -/
def Codec.decodeOk (codec : Codec) (msg : String) : EventCategory → Bool
  | EventCategory.AccountUpdate =>
    match codec.account_update_from_str msg with
    | Except.ok _ => true
    | Except.error _ => false
  | EventCategory.OrderTrade =>
    match codec.order_trade_from_str msg with
    | Except.ok _ => true
    | Except.error _ => false
  | EventCategory.AggregatedTrade =>
    match codec.agg_trade_from_str msg with
    | Except.ok _ => true
    | Except.error _ => false
  | EventCategory.Trade =>
    match codec.trade_from_str msg with
    | Except.ok _ => true
    | Except.error _ => false
  | EventCategory.Kline =>
    match codec.kline_from_str msg with
    | Except.ok _ => true
    | Except.error _ => false
  | EventCategory.PartialOrderBook =>
    match codec.order_book_from_str msg with
    | Except.ok _ => true
    | Except.error _ => false
  | EventCategory.DepthDiff =>
    match codec.depth_diff_from_str msg with
    | Except.ok _ => true
    | Except.error _ => false
  | EventCategory.Unknown => true

/-- A decoder that accepts every payload, keeping it as the snapshot. -/
def okCodec : Codec where
  account_update_from_str := fun s => Except.ok ⟨s⟩
  order_trade_from_str := fun s => Except.ok ⟨s⟩
  agg_trade_from_str := fun s => Except.ok ⟨s⟩
  trade_from_str := fun s => Except.ok ⟨s⟩
  kline_from_str := fun s => Except.ok ⟨s⟩
  order_book_from_str := fun s => Except.ok ⟨s⟩
  depth_diff_from_str := fun s => Except.ok ⟨s⟩

/-- A decoder that rejects kline payloads, exhibiting a fatal decode. -/
def klineFailCodec : Codec :=
  { okCodec with kline_from_str := fun _ => Except.error "boom" }

/-- A user-stream handler over String effects that tags its invocations. -/
def userTag : UserStreamEventHandler String where
  account_update_handler := fun e => "user-account " ++ e.snapshot
  order_trade_handler := fun e => "user-order " ++ e.snapshot

/-- A first market handler over String effects that tags its invocations. -/
def marketTag1 : MarketEventHandler String where
  aggregated_trades_handler := fun e => "m1-agg " ++ e.snapshot
  trade_handler := fun e => "m1-trade " ++ e.snapshot
  orderbook_handler := fun e => "m1-book " ++ e.snapshot
  depth_diff_handler := fun e => "m1-depth " ++ e.snapshot

/-- A second market handler over String effects that tags its invocations. -/
def marketTag2 : MarketEventHandler String where
  aggregated_trades_handler := fun e => "m2-agg " ++ e.snapshot
  trade_handler := fun e => "m2-trade " ++ e.snapshot
  orderbook_handler := fun e => "m2-book " ++ e.snapshot
  depth_diff_handler := fun e => "m2-depth " ++ e.snapshot

/-- A kline handler over String effects that tags its invocations. -/
def klineTag : KlineEventHandler String where
  kline_handler := fun e => "kline-h " ++ e.snapshot

/-- A state with every handler slot filled and no socket. -/
def wsAll : WebSockets String where
  socket := none
  user_stream_handler := some userTag
  market_handler := some marketTag1
  kline_handler := some klineTag

/-- A state with no market handler. -/
def wsNoMarket : WebSockets String :=
  { wsAll with market_handler := none }

/-- A state whose channel fails on its second read. -/
def wsReadErr : WebSockets String :=
  { wsAll with socket := some [Except.ok "plain", Except.error "closed", Except.ok "later"] }

/-- A state whose channel delivers one kline frame. -/
def wsKlineFrame : WebSockets String :=
  { wsAll with socket := some [Except.ok "kline data"] }

/-- An address parser that rejects every address. -/
def parseReject : String → Except String String := fun _ => Except.error "bad address"

/-- An address parser that accepts every address unchanged. -/
def parseAccept : String → Except String String := fun s => Except.ok s

/-- A handshake that always fails. -/
def handshakeReject : String → Except String Channel := fun _ => Except.error "refused"

/-- A handshake that always succeeds with an empty channel. -/
def handshakeAccept : String → Except String Channel := fun _ => Except.ok []

/-- The dispatch branch body at a given category (decode at that category's
type, then invoke the group's handler method when the slot is filled), used to
state properties of the cycle uniformly by category. -/
def categoryStep {ε : Type} (ws : WebSockets ε) (codec : Codec) (msg : String) :
    EventCategory → Except String (List (Action ε))
  | EventCategory.AccountUpdate =>
    match codec.account_update_from_str msg with
    | Except.error e => Except.error e
    | Except.ok account_update =>
      Except.ok (Action.decoded EventCategory.AccountUpdate ::
        (match ws.user_stream_handler with
         | some h => [Action.invoked (h.account_update_handler account_update)]
         | none => []))
  | EventCategory.OrderTrade =>
    match codec.order_trade_from_str msg with
    | Except.error e => Except.error e
    | Except.ok order_trade =>
      Except.ok (Action.decoded EventCategory.OrderTrade ::
        (match ws.user_stream_handler with
         | some h => [Action.invoked (h.order_trade_handler order_trade)]
         | none => []))
  | EventCategory.AggregatedTrade =>
    match codec.agg_trade_from_str msg with
    | Except.error e => Except.error e
    | Except.ok trades =>
      Except.ok (Action.decoded EventCategory.AggregatedTrade ::
        (match ws.market_handler with
         | some h => [Action.invoked (h.aggregated_trades_handler trades)]
         | none => []))
  | EventCategory.Trade =>
    match codec.trade_from_str msg with
    | Except.error e => Except.error e
    | Except.ok trade =>
      Except.ok (Action.decoded EventCategory.Trade ::
        (match ws.market_handler with
         | some h => [Action.invoked (h.trade_handler trade)]
         | none => []))
  | EventCategory.Kline =>
    match codec.kline_from_str msg with
    | Except.error e => Except.error e
    | Except.ok kline =>
      Except.ok (Action.decoded EventCategory.Kline ::
        (match ws.kline_handler with
         | some h => [Action.invoked (h.kline_handler kline)]
         | none => []))
  | EventCategory.PartialOrderBook =>
    match codec.order_book_from_str msg with
    | Except.error e => Except.error e
    | Except.ok book =>
      Except.ok (Action.decoded EventCategory.PartialOrderBook ::
        (match ws.market_handler with
         | some h => [Action.invoked (h.orderbook_handler book)]
         | none => []))
  | EventCategory.DepthDiff =>
    match codec.depth_diff_from_str msg with
    | Except.error e => Except.error e
    | Except.ok depth_diff =>
      Except.ok (Action.decoded EventCategory.DepthDiff ::
        (match ws.market_handler with
         | some h => [Action.invoked (h.depth_diff_handler depth_diff)]
         | none => []))
  | EventCategory.Unknown => Except.ok []

theorem dispatchCycle_eq_categoryStep {ε : Type} (ws : WebSockets ε)
    (codec : Codec) (msg : String) :
    dispatchCycle ws codec msg = categoryStep ws codec msg (classify msg) := by
  unfold dispatchCycle classify
  cases h1 : findMarker msg OUTBOUND_ACCOUNT_INFO <;>
    cases h2 : findMarker msg EXECUTION_REPORT <;>
    cases h3 : findMarker msg AGGREGATED_TRADE <;>
    cases h4 : findMarker msg TRADE <;>
    cases h5 : findMarker msg KLINE <;>
    cases h6 : findMarker msg ORDERBOOK <;>
    cases h7 : findMarker msg DEPTH_DIFF <;>
    simp [categoryStep]

/-- A frame that fails on its own stops the loop there: the frames after it
are never consulted, and the loop result is an error. -/
theorem runFrames_fatal_frame {ε : Type} (ws : WebSockets ε) (codec : Codec)
    (f : Except String String)
    (hf : ∃ err, runFrames ws codec [f] = Except.error err) :
    ∀ pre rest, runFrames ws codec (pre ++ f :: rest) = runFrames ws codec (pre ++ [f]) ∧
      ∃ err, runFrames ws codec (pre ++ [f]) = Except.error err := by
  intro pre
  induction pre with
  | nil =>
    intro rest
    obtain ⟨err, herr⟩ := hf
    cases f with
    | error e => exact ⟨rfl, ⟨LoopError.channelRead e, rfl⟩⟩
    | ok msg =>
      simp only [List.nil_append]
      cases hd : dispatchCycle ws codec msg with
      | error de =>
        exact ⟨by simp [runFrames, hd], ⟨LoopError.decode de, by simp [runFrames, hd]⟩⟩
      | ok acts =>
        exfalso
        simp [runFrames, hd] at herr
  | cons g gs ih =>
    intro rest
    cases g with
    | error e =>
      exact ⟨rfl, ⟨LoopError.channelRead e, rfl⟩⟩
    | ok m =>
      obtain ⟨heq, err, herr2⟩ := ih rest
      cases hd : dispatchCycle ws codec m with
      | error de =>
        exact ⟨by simp [runFrames, hd], ⟨LoopError.decode de, by simp [runFrames, hd]⟩⟩
      | ok acts =>
        refine ⟨by simp [runFrames, hd, heq], ⟨err, by simp [runFrames, hd, herr2]⟩⟩

/-- C1 counterexample: a payload that contains both "aggTrade" and "trade" but
also the higher-priority marker "outboundAccountInfo" classifies as
AccountUpdate, not AggregatedTrade. -/
theorem claim_C1_counterexample :
    findMarker "outboundAccountInfo aggTrade trade" AGGREGATED_TRADE = true ∧
    findMarker "outboundAccountInfo aggTrade trade" TRADE = true ∧
    classify "outboundAccountInfo aggTrade trade" ≠ EventCategory.AggregatedTrade ∧
    classify "outboundAccountInfo aggTrade trade" = EventCategory.AccountUpdate := by
  decide

/-- C1 (amended): for a payload containing both "aggTrade" and "trade",
classification never yields Trade, and when neither of the two
higher-priority markers "outboundAccountInfo" and "executionReport" occurs it
yields AggregatedTrade: the aggTrade test precedes the trade test. -/
theorem claim_C1_agg_before_trade (msg : String)
    (hagg : findMarker msg AGGREGATED_TRADE = true)
    (htr : findMarker msg TRADE = true) :
    classify msg ≠ EventCategory.Trade ∧
    (findMarker msg OUTBOUND_ACCOUNT_INFO = false →
      findMarker msg EXECUTION_REPORT = false →
      classify msg = EventCategory.AggregatedTrade) := by
  unfold classify
  cases h1 : findMarker msg OUTBOUND_ACCOUNT_INFO <;>
    cases h2 : findMarker msg EXECUTION_REPORT <;>
    simp [hagg, htr, h1, h2]

/-- Witness for C1 (amended) at the payload "aggTrade trade". -/
theorem claim_C1_agg_before_trade_witness :
    classify "aggTrade trade" ≠ EventCategory.Trade ∧
    classify "aggTrade trade" = EventCategory.AggregatedTrade :=
  ⟨(claim_C1_agg_before_trade "aggTrade trade" (by decide) (by decide)).1,
   (claim_C1_agg_before_trade "aggTrade trade" (by decide) (by decide)).2
     (by decide) (by decide)⟩

/-- C5: every payload containing "outboundAccountInfo" classifies as
AccountUpdate, regardless of which other markers occur, because that marker
is tested first. -/
theorem claim_C5_account_update_first (msg : String)
    (h : findMarker msg OUTBOUND_ACCOUNT_INFO = true) :
    classify msg = EventCategory.AccountUpdate := by
  simp [classify, h]

/-- Witness for C5 at a payload containing all seven markers. -/
theorem claim_C5_witness :
    findMarker
      "outboundAccountInfo executionReport aggTrade trade kline lastUpdateId depthUpdate"
      OUTBOUND_ACCOUNT_INFO = true ∧
    classify
      "outboundAccountInfo executionReport aggTrade trade kline lastUpdateId depthUpdate" =
      EventCategory.AccountUpdate :=
  ⟨by decide, claim_C5_account_update_first _ (by decide)⟩

/-- C7: connect appends the stream name to the fixed base endpoint; a parse
failure propagates that error and a handshake failure returns the handshake
error message, in both cases with the receiver (its socket field included)
unchanged; on success the channel handle is stored in the socket field. -/
theorem claim_C7_connect_transitions {ε : Type} (ws : WebSockets ε)
    (endpoint url e : String) (ch : Channel)
    (url_parse : String → Except String String)
    (transport_connect : String → Except String Channel) :
    (url_parse (WEBSOCKET_URL ++ endpoint) = Except.error e →
      connect ws endpoint url_parse transport_connect = (Except.error e, ws)) ∧
    (url_parse (WEBSOCKET_URL ++ endpoint) = Except.ok url →
      transport_connect url = Except.error e →
      connect ws endpoint url_parse transport_connect =
        (Except.error ("Error during handshake " ++ e), ws)) ∧
    (url_parse (WEBSOCKET_URL ++ endpoint) = Except.ok url →
      transport_connect url = Except.ok ch →
      connect ws endpoint url_parse transport_connect =
        (Except.ok (), { ws with socket := some ch })) :=
  ⟨fun hp => by simp [connect, hp],
   fun hp hc => by simp [connect, hp, hc],
   fun hp hc => by simp [connect, hp, hc]⟩

/-- Witness for C7: the three connect outcomes at concrete collaborators. -/
theorem claim_C7_witness :
    connect (WebSockets.new String) "ethbtc@trade" parseReject handshakeReject =
      (Except.error "bad address", WebSockets.new String) ∧
    connect (WebSockets.new String) "ethbtc@trade" parseAccept handshakeReject =
      (Except.error ("Error during handshake " ++ "refused"), WebSockets.new String) ∧
    connect (WebSockets.new String) "ethbtc@trade" parseAccept handshakeAccept =
      (Except.ok (), { WebSockets.new String with socket := some [] }) :=
  ⟨(claim_C7_connect_transitions (WebSockets.new String) "ethbtc@trade" "u"
      "bad address" [] parseReject handshakeReject).1 rfl,
   (claim_C7_connect_transitions (WebSockets.new String) "ethbtc@trade"
      (WEBSOCKET_URL ++ "ethbtc@trade") "refused" [] parseAccept handshakeReject).2.1
      rfl rfl,
   (claim_C7_connect_transitions (WebSockets.new String) "ethbtc@trade"
      (WEBSOCKET_URL ++ "ethbtc@trade") "e" [] parseAccept handshakeAccept).2.2
      rfl rfl⟩

/-- C8: with no socket stored (run before a successful connect), the event
loop reads no frame, decodes nothing and invokes no handler: its action trace
is empty. -/
theorem claim_C8_loop_unconnected {ε : Type} (ws : WebSockets ε) (codec : Codec)
    (h : ws.socket = none) :
    event_loop ws codec = Except.ok [] := by
  simp [event_loop, h]

/-- Witness for C8 on a freshly constructed state. -/
theorem claim_C8_witness :
    (WebSockets.new String).socket = none ∧
    event_loop (WebSockets.new String) okCodec = Except.ok [] :=
  ⟨rfl, claim_C8_loop_unconnected (WebSockets.new String) okCodec rfl⟩

/-- C9: each registration operation touches only its own slot: the socket and
the two other handler slots are unchanged. -/
theorem claim_C9_registration_frame {ε : Type} (ws : WebSockets ε)
    (hu : UserStreamEventHandler ε) (hm : MarketEventHandler ε)
    (hk : KlineEventHandler ε) :
    ((add_user_stream_handler ws hu).socket = ws.socket ∧
     (add_user_stream_handler ws hu).market_handler = ws.market_handler ∧
     (add_user_stream_handler ws hu).kline_handler = ws.kline_handler) ∧
    ((add_market_handler ws hm).socket = ws.socket ∧
     (add_market_handler ws hm).user_stream_handler = ws.user_stream_handler ∧
     (add_market_handler ws hm).kline_handler = ws.kline_handler) ∧
    ((add_kline_handler ws hk).socket = ws.socket ∧
     (add_kline_handler ws hk).user_stream_handler = ws.user_stream_handler ∧
     (add_kline_handler ws hk).market_handler = ws.market_handler) :=
  ⟨⟨rfl, rfl, rfl⟩, ⟨rfl, rfl, rfl⟩, ⟨rfl, rfl, rfl⟩⟩

/-- C2: classification is total — every payload gets exactly one category,
Unknown exactly when none of the seven markers occurs — and an Unknown payload
produces a cycle with no decode, no invocation and no error, after which the
loop proceeds to the remaining frames. -/
theorem claim_C2_classification_total {ε : Type} (ws : WebSockets ε)
    (codec : Codec) (msg : String) (rest : Channel) :
    (∃! c : EventCategory, classify msg = c) ∧
    (classify msg = EventCategory.Unknown ↔
      (findMarker msg OUTBOUND_ACCOUNT_INFO = false ∧
       findMarker msg EXECUTION_REPORT = false ∧
       findMarker msg AGGREGATED_TRADE = false ∧
       findMarker msg TRADE = false ∧
       findMarker msg KLINE = false ∧
       findMarker msg ORDERBOOK = false ∧
       findMarker msg DEPTH_DIFF = false)) ∧
    (classify msg = EventCategory.Unknown →
      dispatchCycle ws codec msg = Except.ok [] ∧
      runFrames ws codec (Except.ok msg :: rest) = runFrames ws codec rest) := by
  refine ⟨⟨classify msg, rfl, fun c hc => hc.symm⟩, ?_, ?_⟩
  · unfold classify
    cases h1 : findMarker msg OUTBOUND_ACCOUNT_INFO <;>
      cases h2 : findMarker msg EXECUTION_REPORT <;>
      cases h3 : findMarker msg AGGREGATED_TRADE <;>
      cases h4 : findMarker msg TRADE <;>
      cases h5 : findMarker msg KLINE <;>
      cases h6 : findMarker msg ORDERBOOK <;>
      cases h7 : findMarker msg DEPTH_DIFF <;>
      simp
  · intro hu
    have hd : dispatchCycle ws codec msg = Except.ok [] := by
      rw [dispatchCycle_eq_categoryStep, hu]
      rfl
    refine ⟨hd, ?_⟩
    cases hr : runFrames ws codec rest <;> simp [runFrames, hd, hr]

/-- Witness for C2 at the marker-free payload "plain". -/
theorem claim_C2_witness :
    dispatchCycle wsAll okCodec "plain" = Except.ok [] ∧
    runFrames wsAll okCodec (Except.ok "plain" :: [Except.ok "also plain"]) =
      runFrames wsAll okCodec [Except.ok "also plain"] :=
  (claim_C2_classification_total wsAll okCodec "plain" [Except.ok "also plain"]).2.2
    (by decide)

/-- C3: a channel read error, and a decode error on a classified payload, are
each fatal: the loop's result does not consult the frames after the failing
one and is the propagated error. -/
theorem claim_C3_fatal_errors {ε : Type} (ws : WebSockets ε) (codec : Codec)
    (pre rest : Channel) (e msg d : String) :
    (ws.socket = some (pre ++ Except.error e :: rest) →
      event_loop ws codec = runFrames ws codec (pre ++ [Except.error e]) ∧
      ∃ err, event_loop ws codec = Except.error err) ∧
    (ws.socket = some (pre ++ Except.ok msg :: rest) →
      dispatchCycle ws codec msg = Except.error d →
      event_loop ws codec = runFrames ws codec (pre ++ [Except.ok msg]) ∧
      ∃ err, event_loop ws codec = Except.error err) := by
  constructor
  · intro hs
    have h := runFrames_fatal_frame ws codec (Except.error e)
      ⟨LoopError.channelRead e, rfl⟩ pre rest
    refine ⟨by simp [event_loop, hs, h.1], ?_⟩
    obtain ⟨err, herr⟩ := h.2
    exact ⟨err, by simp [event_loop, hs, h.1, herr]⟩
  · intro hs hd
    have h := runFrames_fatal_frame ws codec (Except.ok msg)
      ⟨LoopError.decode d, by simp [runFrames, hd]⟩ pre rest
    refine ⟨by simp [event_loop, hs, h.1], ?_⟩
    obtain ⟨err, herr⟩ := h.2
    exact ⟨err, by simp [event_loop, hs, h.1, herr]⟩

/-- Witness for C3: a channel that fails on its second read stops the loop
with that read error, and a kline frame the decoder rejects stops the loop
with that decode error. -/
theorem claim_C3_witness :
    event_loop wsReadErr okCodec = Except.error (LoopError.channelRead "closed") ∧
    event_loop wsKlineFrame klineFailCodec = Except.error (LoopError.decode "boom") := by
  constructor
  · have h := (claim_C3_fatal_errors wsReadErr okCodec [Except.ok "plain"]
      [Except.ok "later"] "closed" "x" "y").1 rfl
    rw [h.1]
    rfl
  · have h := (claim_C3_fatal_errors wsKlineFrame klineFailCodec [] []
      "e" "kline data" "boom").2 rfl (by rfl)
    rw [h.1]
    rfl

/-- C4: registration replaces the group's binding — after two successive
registrations each slot holds only the second handler — and after registering
m1 then m2 for the Market group, every invocation a Market-category dispatch
performs produces an effect of m2's methods. -/
theorem claim_C4_last_registration_wins {ε : Type} (ws : WebSockets ε)
    (u1 u2 : UserStreamEventHandler ε) (m1 m2 : MarketEventHandler ε)
    (k1 k2 : KlineEventHandler ε) (codec : Codec) (msg : String) :
    (add_user_stream_handler (add_user_stream_handler ws u1) u2).user_stream_handler =
      some u2 ∧
    (add_market_handler (add_market_handler ws m1) m2).market_handler = some m2 ∧
    (add_kline_handler (add_kline_handler ws k1) k2).kline_handler = some k2 ∧
    (∀ acts eff,
      groupOf (classify msg) = some HandlerGroup.Market →
      dispatchCycle (add_market_handler (add_market_handler ws m1) m2) codec msg =
        Except.ok acts →
      Action.invoked eff ∈ acts →
      MarketEventHandler.emits m2 eff) := by
  refine ⟨rfl, rfl, rfl, ?_⟩
  intro acts eff hg hd hm
  rw [dispatchCycle_eq_categoryStep] at hd
  cases hc : classify msg <;> rw [hc] at hg hd <;> simp [groupOf] at hg
  case AggregatedTrade =>
    cases hdc : codec.agg_trade_from_str msg with
    | error er => simp [categoryStep, hdc] at hd
    | ok ev =>
      simp [categoryStep, hdc, add_market_handler] at hd
      subst hd
      simp at hm
      exact Or.inl ⟨ev, hm⟩
  case Trade =>
    cases hdc : codec.trade_from_str msg with
    | error er => simp [categoryStep, hdc] at hd
    | ok ev =>
      simp [categoryStep, hdc, add_market_handler] at hd
      subst hd
      simp at hm
      exact Or.inr (Or.inl ⟨ev, hm⟩)
  case PartialOrderBook =>
    cases hdc : codec.order_book_from_str msg with
    | error er => simp [categoryStep, hdc] at hd
    | ok ev =>
      simp [categoryStep, hdc, add_market_handler] at hd
      subst hd
      simp at hm
      exact Or.inr (Or.inr (Or.inl ⟨ev, hm⟩))
  case DepthDiff =>
    cases hdc : codec.depth_diff_from_str msg with
    | error er => simp [categoryStep, hdc] at hd
    | ok ev =>
      simp [categoryStep, hdc, add_market_handler] at hd
      subst hd
      simp at hm
      exact Or.inr (Or.inr (Or.inr ⟨ev, hm⟩))

/-- Witness for C4: after registering marketTag1 then marketTag2, the
aggregated-trade dispatch invokes marketTag2's method. -/
theorem claim_C4_witness :
    MarketEventHandler.emits marketTag2 "m2-agg aggTrade data" :=
  (claim_C4_last_registration_wins wsAll userTag userTag marketTag1 marketTag2
      klineTag klineTag okCodec "aggTrade data").2.2.2
    [Action.decoded EventCategory.AggregatedTrade, Action.invoked "m2-agg aggTrade data"]
    "m2-agg aggTrade data" (by decide) (by rfl) (by decide)

/-- C6: for a frame whose category's group has no handler registered, the
cycle still decodes the payload (succeeding without error for a payload the
decoder accepts), invokes no handler method, and the loop continues with the
remaining frames. -/
theorem claim_C6_decode_without_handler {ε : Type} (ws : WebSockets ε)
    (codec : Codec) (msg : String) (g : HandlerGroup)
    (hg : groupOf (classify msg) = some g)
    (hempty : handlerSlotEmpty ws g = true)
    (hdec : Codec.decodeOk codec msg (classify msg) = true) :
    dispatchCycle ws codec msg = Except.ok [Action.decoded (classify msg)] ∧
    ∀ rest, runFrames ws codec (Except.ok msg :: rest) =
      Except.map (fun more => Action.decoded (classify msg) :: more)
        (runFrames ws codec rest) := by
  have hstep : dispatchCycle ws codec msg = Except.ok [Action.decoded (classify msg)] := by
    rw [dispatchCycle_eq_categoryStep]
    cases hc : classify msg <;> rw [hc] at hg hdec <;> simp [groupOf] at hg <;> subst hg
    case AccountUpdate =>
      simp [handlerSlotEmpty, Option.isNone_iff_eq_none] at hempty
      cases hdc : codec.account_update_from_str msg with
      | error er => simp [Codec.decodeOk, hdc] at hdec
      | ok ev => simp [categoryStep, hdc, hempty]
    case OrderTrade =>
      simp [handlerSlotEmpty, Option.isNone_iff_eq_none] at hempty
      cases hdc : codec.order_trade_from_str msg with
      | error er => simp [Codec.decodeOk, hdc] at hdec
      | ok ev => simp [categoryStep, hdc, hempty]
    case AggregatedTrade =>
      simp [handlerSlotEmpty, Option.isNone_iff_eq_none] at hempty
      cases hdc : codec.agg_trade_from_str msg with
      | error er => simp [Codec.decodeOk, hdc] at hdec
      | ok ev => simp [categoryStep, hdc, hempty]
    case Trade =>
      simp [handlerSlotEmpty, Option.isNone_iff_eq_none] at hempty
      cases hdc : codec.trade_from_str msg with
      | error er => simp [Codec.decodeOk, hdc] at hdec
      | ok ev => simp [categoryStep, hdc, hempty]
    case Kline =>
      simp [handlerSlotEmpty, Option.isNone_iff_eq_none] at hempty
      cases hdc : codec.kline_from_str msg with
      | error er => simp [Codec.decodeOk, hdc] at hdec
      | ok ev => simp [categoryStep, hdc, hempty]
    case PartialOrderBook =>
      simp [handlerSlotEmpty, Option.isNone_iff_eq_none] at hempty
      cases hdc : codec.order_book_from_str msg with
      | error er => simp [Codec.decodeOk, hdc] at hdec
      | ok ev => simp [categoryStep, hdc, hempty]
    case DepthDiff =>
      simp [handlerSlotEmpty, Option.isNone_iff_eq_none] at hempty
      cases hdc : codec.depth_diff_from_str msg with
      | error er => simp [Codec.decodeOk, hdc] at hdec
      | ok ev => simp [categoryStep, hdc, hempty]
  refine ⟨hstep, ?_⟩
  intro rest
  cases hr : runFrames ws codec rest <;> simp [runFrames, hstep, hr, Except.map]

/-- Witness for C6: a trade frame with no market handler registered is still
decoded and produces no invocation. -/
theorem claim_C6_witness :
    dispatchCycle wsNoMarket okCodec "trade data" =
      Except.ok [Action.decoded (classify "trade data")] :=
  (claim_C6_decode_without_handler wsNoMarket okCodec "trade data"
      HandlerGroup.Market (by decide) (by decide) (by decide)).1

/-- C10: a completed dispatch cycle performs at most one handler invocation,
and every decode it performs is at the payload's (first-matching) category:
the classification branches are mutually exclusive. -/
theorem claim_C10_at_most_one_invocation {ε : Type} (ws : WebSockets ε)
    (codec : Codec) (msg : String) (acts : List (Action ε))
    (h : dispatchCycle ws codec msg = Except.ok acts) :
    (acts.filter Action.isInvoked).length ≤ 1 ∧
    (∀ c, Action.decoded c ∈ acts → c = classify msg) := by
  rw [dispatchCycle_eq_categoryStep] at h
  cases hc : classify msg <;> rw [hc] at h
  case AccountUpdate =>
    cases hdc : codec.account_update_from_str msg with
    | error er => simp [categoryStep, hdc] at h
    | ok ev =>
      cases hh : ws.user_stream_handler <;> simp [categoryStep, hdc, hh] at h <;>
        subst h <;>
        exact ⟨by simp [Action.isInvoked], by intro c hmem; simp at hmem; exact hmem⟩
  case OrderTrade =>
    cases hdc : codec.order_trade_from_str msg with
    | error er => simp [categoryStep, hdc] at h
    | ok ev =>
      cases hh : ws.user_stream_handler <;> simp [categoryStep, hdc, hh] at h <;>
        subst h <;>
        exact ⟨by simp [Action.isInvoked], by intro c hmem; simp at hmem; exact hmem⟩
  case AggregatedTrade =>
    cases hdc : codec.agg_trade_from_str msg with
    | error er => simp [categoryStep, hdc] at h
    | ok ev =>
      cases hh : ws.market_handler <;> simp [categoryStep, hdc, hh] at h <;>
        subst h <;>
        exact ⟨by simp [Action.isInvoked], by intro c hmem; simp at hmem; exact hmem⟩
  case Trade =>
    cases hdc : codec.trade_from_str msg with
    | error er => simp [categoryStep, hdc] at h
    | ok ev =>
      cases hh : ws.market_handler <;> simp [categoryStep, hdc, hh] at h <;>
        subst h <;>
        exact ⟨by simp [Action.isInvoked], by intro c hmem; simp at hmem; exact hmem⟩
  case Kline =>
    cases hdc : codec.kline_from_str msg with
    | error er => simp [categoryStep, hdc] at h
    | ok ev =>
      cases hh : ws.kline_handler <;> simp [categoryStep, hdc, hh] at h <;>
        subst h <;>
        exact ⟨by simp [Action.isInvoked], by intro c hmem; simp at hmem; exact hmem⟩
  case PartialOrderBook =>
    cases hdc : codec.order_book_from_str msg with
    | error er => simp [categoryStep, hdc] at h
    | ok ev =>
      cases hh : ws.market_handler <;> simp [categoryStep, hdc, hh] at h <;>
        subst h <;>
        exact ⟨by simp [Action.isInvoked], by intro c hmem; simp at hmem; exact hmem⟩
  case DepthDiff =>
    cases hdc : codec.depth_diff_from_str msg with
    | error er => simp [categoryStep, hdc] at h
    | ok ev =>
      cases hh : ws.market_handler <;> simp [categoryStep, hdc, hh] at h <;>
        subst h <;>
        exact ⟨by simp [Action.isInvoked], by intro c hmem; simp at hmem; exact hmem⟩
  case Unknown =>
    simp [categoryStep] at h
    subst h
    exact ⟨by simp, by intro c hmem; simp at hmem⟩

/-- Witness for C10: a trade frame with all handlers registered produces a
trace with exactly one invocation. -/
theorem claim_C10_witness :
    ((([Action.decoded EventCategory.Trade,
        Action.invoked "m1-trade trade data"] : List (Action String)).filter
        Action.isInvoked).length ≤ 1) ∧
    EventCategory.Trade = classify "trade data" :=
  ⟨(claim_C10_at_most_one_invocation wsAll okCodec "trade data"
      [Action.decoded EventCategory.Trade, Action.invoked "m1-trade trade data"]
      (by rfl)).1,
   (claim_C10_at_most_one_invocation wsAll okCodec "trade data"
      [Action.decoded EventCategory.Trade, Action.invoked "m1-trade trade data"]
      (by rfl)).2 EventCategory.Trade (by decide)⟩

end Binance
